import Mathlib

/-!
Verification of the News_Portal role-based publishing workflow
(`articles/models.py`, `articles/views.py`, `articles/signals.py`,
`articles/utils.py`, `articles/forms.py`) against its specification.

The Django views are shallowly embedded as pure functions: the relational
store becomes explicit lists of records, a `.save()` on an `Article`
returns the list of e-mails dispatched by the `post_save` signal handler
`notify_followers_on_approval`, and the authorization decorators
(`login_required`, `user_passes_test`) become guards producing an
access-denial outcome.
-/

namespace NewsPortal

/-- `CustomUser.ROLE_CHOICES` in `articles/models.py`. -/
inductive Role where
  | reader
  | editor
  | journalist
  | publisher
deriving DecidableEq, Repr

/-- `CustomUser` (`articles/models.py`): identity with a single role and,
for readers, many-to-many subscription sets (stored as lists of row ids;
Django M2M `add` is set-like, see `m2m_add`).  `is_authenticated` models
the request-level authentication flag the role helpers consult.  The empty
string models a blank `email` (Python falsiness of `""`). -/
structure CustomUser where
  id : Nat
  username : String
  email : String
  role : Role
  is_authenticated : Bool
  subscribed_publishers : List Nat
  subscribed_journalists : List Nat
deriving DecidableEq, Repr

/-- `Publisher` (`articles/models.py`): named entity owned by one user. -/
structure Publisher where
  id : Nat
  name : String
  description : String
  owner : Nat
deriving DecidableEq, Repr

/-- `Article` (`articles/models.py`): content item with an `approved`
flag (default false), an author (user id) and a publisher (row id). -/
structure Article where
  id : Nat
  title : String
  content : String
  summary : String
  author : Nat
  publisher : Nat
  approved : Bool
deriving DecidableEq, Repr

/-- `Newsletter` (`articles/models.py`): authored content item holding a
many-to-many set of article ids. -/
structure Newsletter where
  id : Nat
  title : String
  content : String
  summary : String
  author : Nat
  articles : List Nat
deriving DecidableEq, Repr

/-- `is_editor` (`articles/views.py`). -/
def is_editor (u : CustomUser) : Bool :=
  u.is_authenticated && decide (u.role = Role.editor)

/-- `is_journalist` (`articles/views.py`). -/
def is_journalist (u : CustomUser) : Bool :=
  u.is_authenticated && decide (u.role = Role.journalist)

/-- `is_reader` (`articles/views.py`). -/
def is_reader (u : CustomUser) : Bool :=
  u.is_authenticated && decide (u.role = Role.reader)

/-- `is_publisher` (`articles/views.py`). -/
def is_publisher (u : CustomUser) : Bool :=
  u.is_authenticated && decide (u.role = Role.publisher)

/-- One e-mail handed to `send_mail` in `articles/signals.py`. -/
structure EmailMessage where
  subject : String
  message : String
  recipient : String
deriving DecidableEq, Repr

/-- The loop body of `notify_followers_on_approval` once the `approved`
guard has passed: `a.author.followers.all()` (users whose
`subscribed_journalists` set contains the author, via the reverse
accessor `related_name="followers"`), one `send_mail` per follower with a
non-blank e-mail address, subject `f"New Article: {a.title}"` and
message `a.content[:200]`. -/
def follower_email_batch (users : List CustomUser) (a : Article) : List EmailMessage :=
  ((users.filter (fun u => u.subscribed_journalists.contains a.author)).filter
      (fun u => u.email ≠ "")).map
    (fun u =>
      { subject := "New Article: " ++ a.title
        message := a.content.take 200
        recipient := u.email })

/-- `notify_followers_on_approval` (`articles/signals.py`): `post_save`
receiver on `Article`; whenever a saved instance has `approved == True`
it dispatches the follower batch, otherwise nothing.  (The handler tests
`a.approved`, not the Pending→Approved transition.) -/
def notify_followers_on_approval (users : List CustomUser) (a : Article) : List EmailMessage :=
  if a.approved then follower_email_batch users a else []

/-- The e-mails emitted by one `Article.save()` call: Django fires the
`post_save` signal, whose only registered `Article` receiver is
`notify_followers_on_approval`. -/
def article_post_save (users : List CustomUser) (a : Article) : List EmailMessage :=
  notify_followers_on_approval users a

/-- Number of tweets created by one `post_to_twitter` call
(`articles/utils.py`): zero when `TWITTER_ENABLED` is off; when on, the
single `client.create_tweet` either succeeds (one post, `ok = true`) or
raises and is caught (zero posts). -/
def post_to_twitter_count (enabled ok : Bool) : Nat :=
  if enabled then (if ok then 1 else 0) else 0

/-- Result of the editor view `approve_article`: the stored article, the
e-mails dispatched by the save's `post_save` signal, and the number of
social posts made. -/
structure ApproveResult where
  article : Article
  emails : List EmailMessage
  tweets : Nat
deriving DecidableEq, Repr

/-- `approve_article` (`articles/views.py`): editor-only
(`@user_passes_test(is_editor)`, modelled as `none` on failure).  If the
article is not yet approved it sets `approved = True`, saves (firing the
signal) and tries `post_to_twitter`; an already-approved article is left
untouched with no side effects. -/
def approve_article (actor : CustomUser) (users : List CustomUser) (article : Article)
    (twitterEnabled twitterOk : Bool) : Option ApproveResult :=
  if is_editor actor then
    if !article.approved then
      let saved := { article with approved := true }
      some { article := saved
             emails := article_post_save users saved
             tweets := post_to_twitter_count twitterEnabled twitterOk }
    else some { article := article, emails := [], tweets := 0 }
  else none

/-- Outcome of a form-driven view, following the boundary taxonomy:
`denied` is the access-denial response produced when an authorization
decorator or gate rejects the actor; `notFound` models
`get_object_or_404` missing; `renderPage` is a rendered document
(GET form, or POST re-render on invalid input); `redirected` is the
success-path redirect to the named route; `validationError` is a raised
`django.core.exceptions.ValidationError` (produced only when model
validation runs). -/
inductive PageOutcome where
  | denied
  | notFound
  | renderPage
  | redirected (target : String)
  | validationError
deriving DecidableEq, Repr

/-- The POST payload reaching `ArticleForm`.  The raw request data may
carry an `author` value, but `ArticleForm.Meta.fields` is
`['title', 'content', 'publisher']` (`articles/forms.py`), so only those
three are cleaned and applied. -/
structure ArticlePost where
  title : String
  content : String
  publisher : Nat
  author : Nat
deriving DecidableEq, Repr

/-- `ArticleForm(request.POST, instance=article).save(commit=False)`:
applies exactly the form's `Meta.fields` (`title`, `content`,
`publisher`) to the bound instance; every other column, including
`author` and `approved`, keeps the instance's stored value. -/
def articleForm_apply (p : ArticlePost) (a : Article) : Article :=
  { a with title := p.title, content := p.content, publisher := p.publisher }

/-- An article-updating view's successful result: the saved article and
the e-mails its save's `post_save` signal dispatched. -/
structure UpdateResult where
  article : Article
  emails : List EmailMessage
deriving DecidableEq, Repr

/-- `update_article` (`articles/views.py`, editor tier): editor-only;
on POST it applies the form to the instance, forcibly resets
`updated_article.author` to the stored author, and saves (firing the
`post_save` signal). -/
def update_article (actor : CustomUser) (users : List CustomUser) (article : Article)
    (post : ArticlePost) : Option UpdateResult :=
  if is_editor actor then
    let updated := articleForm_apply post article
    let pinned := { updated with author := article.author }
    some { article := pinned, emails := article_post_save users pinned }
  else none

/-- `journalist_article_update` (`articles/views.py`): journalist-only,
and the `get_object_or_404(Article, pk=pk, author=request.user)` lookup
restricts to the actor's own articles; on POST the form is applied and
saved (firing the `post_save` signal). -/
def journalist_article_update (actor : CustomUser) (users : List CustomUser)
    (article : Article) (post : ArticlePost) : Option UpdateResult :=
  if is_journalist actor && decide (article.author = actor.id) then
    let updated := articleForm_apply post article
    some { article := updated, emails := article_post_save users updated }
  else none

/-- `delete_article` (`articles/views.py`, editor tier): editor-only;
on POST it deletes the article only when `not article.approved`, and in
either case redirects to the editor dashboard. -/
def delete_article (actor : CustomUser) (articles : List Article) (pk : Nat)
    (isPost : Bool) : PageOutcome × List Article :=
  if is_editor actor then
    match articles.find? (fun a => a.id == pk) with
    | none => (.notFound, articles)
    | some a =>
      if isPost then
        (.redirected "editor_dashboard",
         if !a.approved then articles.filter (fun b => b.id != pk) else articles)
      else (.renderPage, articles)
  else (.denied, articles)

/-- The POST payload reaching `NewsletterForm`
(`Meta.fields = ['title', 'content', 'articles']`). -/
structure NewsletterPost where
  title : String
  content : String
  articles : List Nat
deriving DecidableEq, Repr

/-- `newsletter_delete` (`articles/views.py`): carries no
`@login_required` and no `@user_passes_test` decorator, so the actor is
never consulted; any request reaching it with an existing pk and POST
deletes the newsletter. -/
def newsletter_delete (_actor : CustomUser) (newsletters : List Newsletter) (pk : Nat)
    (isPost : Bool) : PageOutcome × List Newsletter :=
  match newsletters.find? (fun n => n.id == pk) with
  | none => (.notFound, newsletters)
  | some _ =>
    if isPost then
      (.redirected "journalist_newsletter_list", newsletters.filter (fun n => n.id != pk))
    else (.renderPage, newsletters)

/-- `newsletter_update` (`articles/views.py`): journalist-only, but the
`get_object_or_404(Newsletter, pk=pk)` lookup has no author filter; on a
valid POST the form fields are applied, `newsletter.author` is set to
`request.user`, and `save_m2m` replaces the `articles` set wholesale. -/
def newsletter_update (actor : CustomUser) (newsletters : List Newsletter) (pk : Nat)
    (post : Option NewsletterPost) : PageOutcome × List Newsletter :=
  if is_journalist actor then
    match newsletters.find? (fun n => n.id == pk) with
    | none => (.notFound, newsletters)
    | some n =>
      match post with
      | some p =>
        let updated := { n with title := p.title, content := p.content,
                                author := actor.id, articles := p.articles }
        (.redirected "newsletter_list",
         newsletters.map (fun m => if m.id == pk then updated else m))
      | none => (.renderPage, newsletters)
  else (.denied, newsletters)

/-- Django's many-to-many `add`: inserting an already-present id is a
no-op (the through table has a uniqueness constraint on the pair). -/
def m2m_add (l : List Nat) (x : Nat) : List Nat :=
  if l.contains x then l else l ++ [x]

/-- `subscribe_publisher` (`articles/views.py`): reader-only; adds the
looked-up publisher to `request.user.subscribed_publishers` and
redirects to the subscriptions page. -/
def subscribe_publisher (actor : CustomUser) (publishers : List Publisher)
    (pk : Nat) : PageOutcome × CustomUser :=
  if is_reader actor then
    match publishers.find? (fun p => p.id == pk) with
    | none => (.notFound, actor)
    | some p =>
      (.redirected "subscriptions",
       { actor with subscribed_publishers := m2m_add actor.subscribed_publishers p.id })
  else (.denied, actor)

/-- The POST payload reaching `PublisherForm`
(`Meta.fields = ['name', 'description']`; `owner` is not a form field). -/
structure PublisherPost where
  name : String
  description : String
deriving DecidableEq, Repr

/-- `register_publisher` (`articles/views.py`): publisher-role-only; on a
valid POST it saves the form with `owner = request.user` via
`Model.save()`, which runs no model validation (so the `owner`
field's `limit_choices_to={"role": "publisher"}` is never checked on
this path).  `PublisherForm` enforces the `name` uniqueness constraint;
a duplicate name re-renders the form. -/
def register_publisher (actor : CustomUser) (publishers : List Publisher)
    (freshId : Nat) (post : PublisherPost) : PageOutcome × List Publisher :=
  if is_publisher actor then
    if publishers.all (fun p => p.name != post.name) then
      (.redirected "home",
       publishers ++ [{ id := freshId, name := post.name,
                        description := post.description, owner := actor.id }])
    else (.renderPage, publishers)
  else (.denied, publishers)

/-- Response of the DRF endpoint `get_subscribed_articles`:
`ok` is HTTP 200 with the serialized article list, `forbidden` is the
explicit `status=403` response, `unauthorized` is the
`IsAuthenticated` permission rejection, and `serverError` is an
uncaught Python exception surfacing as HTTP 500. -/
inductive ApiResponse where
  | ok (body : List Article)
  | forbidden (detail : String)
  | unauthorized
  | serverError (exception : String)
deriving DecidableEq, Repr

/-- The names bound in the module namespace of `articles/views.py` by its
top-of-file import block (lines 1–11).  `Q` is not among them: the
file never brings `django.db.models.Q` into scope. -/
def views_imported_names : List String :=
  ["login", "login_required", "user_passes_test", "get_object_or_404", "redirect",
   "render", "api_view", "permission_classes", "IsAuthenticated", "Response",
   "ArticleForm", "CustomUserCreationForm", "NewsletterForm", "PublisherForm",
   "Article", "CustomUser", "Newsletter", "Publisher", "ArticleSerializer"]

/-- The queryset `get_subscribed_articles` is written to build: approved
articles whose publisher is in the reader's subscribed publishers or
whose author is in the reader's subscribed journalists. -/
def subscribed_articles_query (user : CustomUser) (articles : List Article) : List Article :=
  articles.filter (fun a =>
    (user.subscribed_publishers.contains a.publisher
      || user.subscribed_journalists.contains a.author)
    && a.approved)

/-- `get_subscribed_articles` (`articles/views.py`): gated by
`IsAuthenticated`; a non-reader gets the fixed 403 detail.  The reader
branch evaluates the name `Q`, which is not bound in the module (see
`views_imported_names`), so in the source as written it raises
`NameError` before any query runs. -/
def get_subscribed_articles (user : CustomUser) (articles : List Article) : ApiResponse :=
  if !user.is_authenticated then .unauthorized
  else if is_reader user then
    if views_imported_names.contains "Q" then
      .ok (subscribed_articles_query user articles)
    else
      .serverError "NameError: name 'Q' is not defined"
  else .forbidden "Only readers can access subscribed articles."

/-- Python `str.strip()` on a list of characters: drop whitespace from
both ends. -/
def pyStrip (s : List Char) : List Char :=
  ((s.dropWhile Char.isWhitespace).reverse.dropWhile Char.isWhitespace).reverse

/-- The announcement text built by `post_to_twitter`
(`articles/utils.py`), over character lists: Python first binds
`tweet_text = f"{pfx} {title} {url}".strip()`; when that text's length
exceeds 280 it is rebound to `f"{pfx} {title[:allowed_len]}… {url}"`
with `allowed_len = max(0, 276 - len(url))` (Nat subtraction). -/
def tweet_text (pfx title url : List Char) : List Char :=
  if 280 < (pyStrip (pfx ++ [' '] ++ title ++ [' '] ++ url)).length then
    pfx ++ [' '] ++ title.take (276 - url.length) ++ ['…'] ++ [' '] ++ url
  else pyStrip (pfx ++ [' '] ++ title ++ [' '] ++ url)

/-- The default `TWITTER_PREFIX` used by `post_to_twitter` when the
setting is absent. -/
def defaultTweetPfx : List Char := "📰 New article:".toList

/-! Concrete fixtures used by witnesses and counterexamples. -/

/-- An authenticated reader with no subscriptions. -/
def exReader : CustomUser :=
  { id := 1, username := "reader1", email := "reader1@example.com", role := .reader,
    is_authenticated := true, subscribed_publishers := [], subscribed_journalists := [] }

/-- An authenticated journalist. -/
def exJournalist : CustomUser :=
  { id := 2, username := "jour1", email := "jour1@example.com", role := .journalist,
    is_authenticated := true, subscribed_publishers := [], subscribed_journalists := [] }

/-- A second authenticated journalist, distinct from `exJournalist`. -/
def exOtherJournalist : CustomUser :=
  { id := 8, username := "jour2", email := "jour2@example.com", role := .journalist,
    is_authenticated := true, subscribed_publishers := [], subscribed_journalists := [] }

/-- An authenticated editor. -/
def exEditor : CustomUser :=
  { id := 3, username := "ed1", email := "ed1@example.com", role := .editor,
    is_authenticated := true, subscribed_publishers := [], subscribed_journalists := [] }

/-- A reader following journalist 2, with an e-mail address. -/
def exFollower : CustomUser :=
  { id := 4, username := "fan1", email := "fan1@example.com", role := .reader,
    is_authenticated := true, subscribed_publishers := [], subscribed_journalists := [2] }

/-- An unauthenticated request identity. -/
def exAnon : CustomUser :=
  { id := 5, username := "", email := "", role := .reader,
    is_authenticated := false, subscribed_publishers := [], subscribed_journalists := [] }

/-- A publisher row. -/
def exPublisher : Publisher :=
  { id := 7, name := "Daily Planet", description := "news", owner := 6 }

/-- A pending article by journalist 2. -/
def exPending : Article :=
  { id := 10, title := "Launch", content := "Full story body", summary := "",
    author := 2, publisher := 7, approved := false }

/-- An approved article by journalist 2. -/
def exApproved : Article :=
  { id := 11, title := "Scoop", content := "Scoop body", summary := "",
    author := 2, publisher := 7, approved := true }

/-- POST data for the article form, carrying a foreign `author` value. -/
def exPost : ArticlePost :=
  { title := "Edited title", content := "Edited body", publisher := 7, author := 9 }

/-- A newsletter authored by journalist 2. -/
def exNewsletter : Newsletter :=
  { id := 20, title := "Weekly", content := "Digest", summary := "",
    author := 2, articles := [10] }

/-- POST data for the newsletter form. -/
def exNlPost : NewsletterPost :=
  { title := "Weekly v2", content := "Digest v2", articles := [11] }

/-- POST data for the publisher form. -/
def exPubPost : PublisherPost := { name := "Daily Times", description := "blurb" }

/-! Claim theorems. -/

/-- C1.  `GET /api/subscribed-articles/` (`get_subscribed_articles`):
a journalist-role identity does get the fixed 403 body, but an
authenticated reader — even with empty subscription sets — never gets
the specified 200 empty array: the view body evaluates `Q`, a name the
module never imports, so the request dies with a `NameError`
(an HTTP 500), contradicting the view's own docstring. -/
theorem get_subscribed_articles_reader_name_error :
    get_subscribed_articles exReader [] =
      ApiResponse.serverError "NameError: name 'Q' is not defined" ∧
    get_subscribed_articles exJournalist [] =
      ApiResponse.forbidden "Only readers can access subscribed articles." ∧
    views_imported_names.contains "Q" = false := by
  refine ⟨rfl, rfl, by decide⟩

/-- C2.  `approve_article` on a pending article: the first editor call
stores the article with `approved = true` and dispatches exactly one
notification batch — one e-mail per follower of the author having an
e-mail address — plus at most one social post; the second call returns
the article unchanged with zero e-mails and zero posts. -/
theorem approve_article_twice_spec (actor : CustomUser) (users : List CustomUser)
    (a : Article) (twE twOk : Bool)
    (hed : is_editor actor = true) (hpending : a.approved = false) :
    ∃ r, approve_article actor users a twE twOk = some r ∧
      r.article = { a with approved := true } ∧
      r.emails = follower_email_batch users r.article ∧
      r.emails.length =
        ((users.filter (fun u => u.subscribed_journalists.contains a.author)).filter
            (fun u => u.email ≠ "")).length ∧
      r.tweets ≤ 1 ∧
      approve_article actor users r.article twE twOk =
        some { article := r.article, emails := [], tweets := 0 } := by
  refine ⟨{ article := { a with approved := true },
            emails := follower_email_batch users { a with approved := true },
            tweets := post_to_twitter_count twE twOk }, ?_, rfl, rfl, ?_, ?_, ?_⟩
  · simp [approve_article, hed, hpending, article_post_save, notify_followers_on_approval]
  · simp [follower_email_batch]
  · cases twE <;> cases twOk <;> simp [post_to_twitter_count]
  · simp [approve_article, hed]

/-- Witness for C2 at a concrete editor, follower list and pending
article. -/
theorem approve_article_twice_spec_witness :
    is_editor exEditor = true ∧ exPending.approved = false ∧
    (∃ r, approve_article exEditor [exFollower] exPending true true = some r ∧
      r.article = { exPending with approved := true } ∧
      r.emails = follower_email_batch [exFollower] r.article ∧
      r.emails.length =
        (([exFollower].filter (fun u => u.subscribed_journalists.contains exPending.author)).filter
            (fun u => u.email ≠ "")).length ∧
      r.tweets ≤ 1 ∧
      approve_article exEditor [exFollower] r.article true true =
        some { article := r.article, emails := [], tweets := 0 }) :=
  ⟨by decide, by decide,
   approve_article_twice_spec exEditor [exFollower] exPending true true
     (by decide) (by decide)⟩

set_option maxRecDepth 4000 in
/-- C3 counterexample.  `update_article` on the already-approved article
`exApproved` (no approval transition happens) still dispatches a
follower notification: the `post_save` handler tests the stored
`approved` flag, not the Pending→Approved transition. -/
theorem update_article_approved_notifies_counterexample :
    update_article exEditor [exFollower] exApproved exPost =
      some { article := { exApproved with
                            title := exPost.title,
                            content := exPost.content,
                            publisher := exPost.publisher },
             emails := [{ subject := "New Article: Edited title",
                          message := "Edited body",
                          recipient := "fan1@example.com" }] } ∧
    ([{ subject := "New Article: Edited title", message := "Edited body",
        recipient := "fan1@example.com" }] : List EmailMessage) ≠ [] := by
  exact ⟨rfl, by decide⟩

/-- C3 as amended.  Every save performed by `update_article` dispatches
the full follower batch exactly when the article's stored `approved`
flag is true — independently of any transition — and dispatches nothing
when the flag is false. -/
theorem update_article_emails_iff_approved (actor : CustomUser) (users : List CustomUser)
    (a : Article) (post : ArticlePost) (r : UpdateResult)
    (h : update_article actor users a post = some r) :
    r.emails = (if a.approved then follower_email_batch users r.article else []) := by
  rw [update_article] at h
  split at h
  · cases h
    cases ha : a.approved <;>
      simp [article_post_save, notify_followers_on_approval, articleForm_apply, ha]
  · exact Option.noConfusion h

set_option maxRecDepth 4000 in
/-- Witness for the amended C3 at a concrete editor update of an
approved article. -/
theorem update_article_emails_iff_approved_witness :
    ({ article := { exApproved with
                      title := exPost.title,
                      content := exPost.content,
                      publisher := exPost.publisher },
       emails := [{ subject := "New Article: Edited title",
                    message := "Edited body",
                    recipient := "fan1@example.com" }] } : UpdateResult).emails =
      (if exApproved.approved then
        follower_email_batch [exFollower]
          ({ article := { exApproved with
                            title := exPost.title,
                            content := exPost.content,
                            publisher := exPost.publisher },
             emails := [{ subject := "New Article: Edited title",
                          message := "Edited body",
                          recipient := "fan1@example.com" }] } : UpdateResult).article
       else []) :=
  update_article_emails_iff_approved exEditor [exFollower] exApproved exPost _ rfl

/-- C4 counterexample.  `newsletter_delete` succeeds for an actor that is
neither authenticated nor the newsletter's author: the view carries no
authorization decorator, so the unauthenticated `exAnon` (id 5, not
author 2) deletes `exNewsletter` outright instead of failing with an
access denial. -/
theorem newsletter_delete_no_auth_counterexample :
    newsletter_delete exAnon [exNewsletter] 20 true =
      (PageOutcome.redirected "journalist_newsletter_list", []) ∧
    exAnon.is_authenticated = false ∧ exAnon.id ≠ exNewsletter.author ∧
    PageOutcome.redirected "journalist_newsletter_list" ≠ PageOutcome.denied := by
  refine ⟨rfl, rfl, by decide, by decide⟩

/-- C4 as amended.  `newsletter_delete` consults no identity at all: any
actor's POST deletes the newsletter; `newsletter_update` requires only
an authenticated journalist role — not authorship — and on success
reassigns the newsletter's author to the acting journalist, replacing
the `articles` set wholesale. -/
theorem newsletter_mutation_auth_actual (actor j : CustomUser) (n : Newsletter)
    (p : NewsletterPost) (hj : is_journalist j = true) :
    newsletter_delete actor [n] n.id true =
      (PageOutcome.redirected "journalist_newsletter_list", []) ∧
    newsletter_update j [n] n.id (some p) =
      (PageOutcome.redirected "newsletter_list",
       [{ n with title := p.title, content := p.content,
                 author := j.id, articles := p.articles }]) := by
  constructor
  · simp [newsletter_delete]
  · simp [newsletter_update, hj]

/-- Witness for the amended C4: the anonymous actor deletes, and a
journalist who is not the author updates and captures authorship. -/
theorem newsletter_mutation_auth_actual_witness :
    newsletter_delete exAnon [exNewsletter] exNewsletter.id true =
      (PageOutcome.redirected "journalist_newsletter_list", []) ∧
    newsletter_update exOtherJournalist [exNewsletter] exNewsletter.id (some exNlPost) =
      (PageOutcome.redirected "newsletter_list",
       [{ exNewsletter with title := exNlPost.title, content := exNlPost.content,
                            author := exOtherJournalist.id,
                            articles := exNlPost.articles }]) :=
  newsletter_mutation_auth_actual exAnon exOtherJournalist exNewsletter exNlPost
    (by decide)

/-- C5 counterexample.  An editor's POST to `delete_article` on the
approved article `exApproved` does not fail with an access denial: it
responds with the ordinary redirect to the editor dashboard and merely
skips the deletion. -/
theorem delete_article_approved_counterexample :
    delete_article exEditor [exApproved] 11 true =
      (PageOutcome.redirected "editor_dashboard", [exApproved]) ∧
    PageOutcome.redirected "editor_dashboard" ≠ PageOutcome.denied := by
  refine ⟨rfl, by decide⟩

/-- C5 as amended.  For an editor, `delete_article` on an approved
article silently skips the deletion and redirects to the editor
dashboard (no PermissionDenied is raised); on an unapproved article it
deletes the row and issues the same redirect. -/
theorem delete_article_editor_behavior (e : CustomUser) (articles : List Article)
    (pk : Nat) (a : Article) (he : is_editor e = true)
    (hfind : articles.find? (fun b => b.id == pk) = some a) :
    delete_article e articles pk true =
      (PageOutcome.redirected "editor_dashboard",
       if a.approved then articles else articles.filter (fun b => b.id != pk)) := by
  rw [delete_article]
  rw [he]
  simp only [if_true, hfind]
  cases a.approved <;> simp

/-- Witness for the amended C5 at a concrete editor and pending
article. -/
theorem delete_article_editor_behavior_witness :
    delete_article exEditor [exPending] 10 true =
      (PageOutcome.redirected "editor_dashboard",
       if exPending.approved then [exPending]
       else [exPending].filter (fun b => b.id != 10)) :=
  delete_article_editor_behavior exEditor [exPending] 10 exPending (by decide) (by decide)

/-- C6.  `update_article` by an editor with POST data carrying a
different `author` and new `content`: the stored article keeps the
original author (the form has no author field and the view re-pins it)
while the submitted content is applied. -/
theorem update_article_pins_author (actor : CustomUser) (users : List CustomUser)
    (a : Article) (post : ArticlePost)
    (hed : is_editor actor = true) (_hne : post.author ≠ a.author) :
    (update_article actor users a post).map (fun r => (r.article.author, r.article.content))
      = some (a.author, post.content) := by
  simp [update_article, hed, articleForm_apply]

/-- Witness for C6: concrete editor update with a foreign author id in
the POST data. -/
theorem update_article_pins_author_witness :
    (update_article exEditor [] exApproved exPost).map
        (fun r => (r.article.author, r.article.content))
      = some (exApproved.author, exPost.content) :=
  update_article_pins_author exEditor [] exApproved exPost (by decide) (by decide)

/-- Django M2M `add` is idempotent: adding a present id is a no-op. -/
theorem m2m_add_idem (l : List Nat) (x : Nat) :
    m2m_add (m2m_add l x) x = m2m_add l x := by
  by_cases h : x ∈ l <;> simp [m2m_add, h]

/-- C7.  `subscribe_publisher`: any actor whose role is not reader is
denied (for every publisher id); and a successful subscription is a
fixed point — repeating the call with the same publisher returns the
same outcome and the same subscription set. -/
theorem subscribe_publisher_denied_and_idempotent :
    (∀ (u : CustomUser) (pubs : List Publisher) (pk : Nat), u.role ≠ Role.reader →
        subscribe_publisher u pubs pk = (PageOutcome.denied, u)) ∧
    (∀ (u u' : CustomUser) (pubs : List Publisher) (pk : Nat),
        subscribe_publisher u pubs pk = (PageOutcome.redirected "subscriptions", u') →
        subscribe_publisher u' pubs pk = (PageOutcome.redirected "subscriptions", u')) := by
  constructor
  · intro u pubs pk hrole
    have : is_reader u = false := by simp [is_reader, hrole]
    simp [subscribe_publisher, this]
  · intro u u' pubs pk h
    rw [subscribe_publisher] at h
    by_cases hr : is_reader u
    · rw [if_pos hr] at h
      cases hf : pubs.find? (fun p => p.id == pk) with
      | none => rw [hf] at h; exact absurd h (by simp)
      | some p =>
        rw [hf] at h
        have hu' : u' = { u with subscribed_publishers := m2m_add u.subscribed_publishers p.id } := by
          have := congrArg Prod.snd h
          exact this.symm
        subst hu'
        have hr' : is_reader { u with subscribed_publishers := m2m_add u.subscribed_publishers p.id } = true := by
          simpa [is_reader] using hr
        rw [subscribe_publisher, if_pos hr', hf]
        simp [m2m_add_idem]
    · rw [if_neg hr] at h
      exact absurd h (by simp)

/-- Witness for C7: a journalist is denied, and a reader's second
subscription to publisher 7 is a no-op. -/
theorem subscribe_publisher_denied_and_idempotent_witness :
    subscribe_publisher exJournalist [exPublisher] 7 =
      (PageOutcome.denied, exJournalist) ∧
    subscribe_publisher { exReader with subscribed_publishers := [7] } [exPublisher] 7 =
      (PageOutcome.redirected "subscriptions",
       { exReader with subscribed_publishers := [7] }) :=
  ⟨subscribe_publisher_denied_and_idempotent.1 exJournalist [exPublisher] 7 (by decide),
   subscribe_publisher_denied_and_idempotent.2 exReader
     { exReader with subscribed_publishers := [7] } [exPublisher] 7 (by decide)⟩

/-- C8 counterexample.  A reader-role user attempting to create the
publisher "Daily Times" is stopped by `register_publisher`'s role gate
with an access denial — not with a ValidationError: the gated view never
reaches form handling, and the save path it guards never runs model
validation.  No Publisher record is created. -/
theorem register_publisher_reader_counterexample :
    register_publisher exReader [] 30 exPubPost = (PageOutcome.denied, []) ∧
    PageOutcome.denied ≠ PageOutcome.validationError := by
  refine ⟨rfl, by decide⟩

/-- C8 as amended.  For every reader-role user, publisher table, fresh
id and form input, `register_publisher` answers with the access-denial
outcome and leaves the publisher table unchanged (so no record is
created); the failure is the role gate's denial, not a
ValidationError. -/
theorem register_publisher_reader_denied (u : CustomUser) (pubs : List Publisher)
    (freshId : Nat) (post : PublisherPost) (h : u.role = Role.reader) :
    register_publisher u pubs freshId post = (PageOutcome.denied, pubs) := by
  have hp : is_publisher u = false := by simp [is_publisher, h]
  simp [register_publisher, hp]

/-- Witness for the amended C8 at the concrete reader and "Daily Times"
input. -/
theorem register_publisher_reader_denied_witness :
    register_publisher exReader [exPublisher] 30 exPubPost =
      (PageOutcome.denied, [exPublisher]) :=
  register_publisher_reader_denied exReader [exPublisher] 30 exPubPost (by decide)

set_option maxRecDepth 40000 in
/-- C9 counterexample.  With the default configured text `"📰 New
article:"` (14 characters), a 300-character title and a 34-character
canonical link, the truncation branch of `post_to_twitter` produces a
293-character announcement — over the fixed 280-character budget,
because `allowed_len = 276 - len(url)` never accounts for the
configured text's length. -/
theorem tweet_text_over_budget_counterexample :
    280 < (tweet_text defaultTweetPfx (List.replicate 300 'a')
            "https://localhost:8000/articles/1/".toList).length ∧
    (tweet_text defaultTweetPfx (List.replicate 300 'a')
      "https://localhost:8000/articles/1/".toList).length = 293 := by
  refine ⟨by decide, by decide⟩

/-- C9 as amended.  The produced announcement is bounded by
`max 280 (len(pfx) + 279)` whenever the link is at most 276 characters:
280 is guaranteed only when no truncation is needed; the truncation
branch guarantees just `len(pfx) + 279`, which exceeds the 280 budget
for any configured text longer than one character. -/
theorem tweet_text_length_bound (pfx title url : List Char)
    (h : url.length ≤ 276) :
    (tweet_text pfx title url).length ≤ max 280 (pfx.length + 279) := by
  rw [tweet_text]
  split
  · have hb : (pfx ++ [' '] ++ title.take (276 - url.length) ++ ['…'] ++ [' '] ++ url).length
        ≤ pfx.length + 279 := by
      simp only [List.length_append, List.length_take, List.length_cons, List.length_nil]
      omega
    exact le_trans hb (le_max_right _ _)
  · next hle =>
    exact le_trans (by omega) (le_max_left 280 (pfx.length + 279))

/-- Witness for the amended C9 at a short concrete input. -/
theorem tweet_text_length_bound_witness :
    (tweet_text "News:".toList "Launch".toList "https://x/1".toList).length ≤
      max 280 ("News:".toList.length + 279) :=
  tweet_text_length_bound "News:".toList "Launch".toList "https://x/1".toList (by decide)

/-- C10.  Both article-update paths preserve the `approved` flag: the
form exposes only `title`, `content` and `publisher`, so neither the
editor's `update_article` nor the author's `journalist_article_update`
can change approval status. -/
theorem article_updates_preserve_approved :
    (∀ (actor : CustomUser) (users : List CustomUser) (a : Article)
       (post : ArticlePost) (r : UpdateResult),
        update_article actor users a post = some r → r.article.approved = a.approved) ∧
    (∀ (actor : CustomUser) (users : List CustomUser) (a : Article)
       (post : ArticlePost) (r : UpdateResult),
        journalist_article_update actor users a post = some r →
          r.article.approved = a.approved) := by
  constructor
  · intro actor users a post r h
    rw [update_article] at h
    split at h
    · cases h; rfl
    · exact Option.noConfusion h
  · intro actor users a post r h
    rw [journalist_article_update] at h
    split at h
    · cases h; rfl
    · exact Option.noConfusion h

set_option maxRecDepth 4000 in
/-- Witness for C10: concrete editor and author updates of stored
articles. -/
theorem article_updates_preserve_approved_witness :
    ({ article := { exApproved with
                      title := exPost.title,
                      content := exPost.content,
                      publisher := exPost.publisher },
       emails := [{ subject := "New Article: Edited title",
                    message := "Edited body",
                    recipient := "fan1@example.com" }] } : UpdateResult).article.approved
        = exApproved.approved ∧
    ({ article := { exPending with
                      title := exPost.title,
                      content := exPost.content,
                      publisher := exPost.publisher },
       emails := [] } : UpdateResult).article.approved = exPending.approved :=
  ⟨article_updates_preserve_approved.1 exEditor [exFollower] exApproved exPost _ rfl,
   article_updates_preserve_approved.2 exJournalist [exFollower] exPending exPost _ rfl⟩

end NewsPortal
